import Mathlib

/-!
# Verification of the Alumet plugin FFI and the C test plugin

Shallow embedding of the C API surface declared in
`src/alumet/generated/alumet-api.h` and of the C plugin sources
(`src/test-dynamic-plugin-c/src/{plugin,source,output}.c`,
`src/separate-tests/test-dynamic-plugin-c/src/output.c`), together with
models of the engine-side behaviour that the header only declares.

The structural part records each exported C function as a name, a return
type and a parameter list (both types and parameter names transcribed from
the header), and records the argument lists of the observed call sites in
the C plugin sources, so that claims about signatures and call-site arity
are decidable facts about these lists.
-/

namespace Alumet

/-- A formal parameter of a C function: its name and the literal C type. -/
structure CParam where
  pname : String
  ptype : String
deriving DecidableEq, Repr

/-- A C function declaration: name, return type, formal parameter list. -/
structure CFunDecl where
  fname : String
  ret : String
  params : List CParam
deriving DecidableEq, Repr

/-- All function declarations of `src/alumet/generated/alumet-api.h`
(lines 238-391), in header order. Function-pointer typedefs are kept
separately below since they are types, not exported operations. -/
def alumetApiDecls : List CFunDecl := [
  ⟨"config_string_in", "struct NullableAStr",
    [⟨"table", "const ConfigTable *"⟩, ⟨"key", "struct AStr"⟩]⟩,
  ⟨"config_cstring_in", "const char *",
    [⟨"table", "const ConfigTable *"⟩, ⟨"key", "struct AStr"⟩]⟩,
  ⟨"config_int_in", "const int64_t *",
    [⟨"table", "const ConfigTable *"⟩, ⟨"key", "struct AStr"⟩]⟩,
  ⟨"config_bool_in", "const bool *",
    [⟨"table", "const ConfigTable *"⟩, ⟨"key", "struct AStr"⟩]⟩,
  ⟨"config_float_in", "const double *",
    [⟨"table", "const ConfigTable *"⟩, ⟨"key", "struct AStr"⟩]⟩,
  ⟨"config_array_in", "const ConfigArray *",
    [⟨"table", "const ConfigTable *"⟩, ⟨"key", "struct AStr"⟩]⟩,
  ⟨"config_table_in", "const ConfigTable *",
    [⟨"table", "const ConfigTable *"⟩, ⟨"key", "struct AStr"⟩]⟩,
  ⟨"config_string_at", "struct NullableAStr",
    [⟨"array", "ConfigArray *"⟩, ⟨"index", "uintptr_t"⟩]⟩,
  ⟨"config_cstring_at", "const char *",
    [⟨"array", "const ConfigArray *"⟩, ⟨"index", "uintptr_t"⟩]⟩,
  ⟨"config_int_at", "const int64_t *",
    [⟨"array", "const ConfigArray *"⟩, ⟨"index", "uintptr_t"⟩]⟩,
  ⟨"config_bool_at", "const bool *",
    [⟨"array", "const ConfigArray *"⟩, ⟨"index", "uintptr_t"⟩]⟩,
  ⟨"config_float_at", "const double *",
    [⟨"array", "const ConfigArray *"⟩, ⟨"index", "uintptr_t"⟩]⟩,
  ⟨"config_array_at", "const ConfigArray *",
    [⟨"array", "const ConfigArray *"⟩, ⟨"index", "uintptr_t"⟩]⟩,
  ⟨"config_table_at", "const ConfigTable *",
    [⟨"array", "const ConfigArray *"⟩, ⟨"index", "uintptr_t"⟩]⟩,
  ⟨"metric_name", "struct AStr",
    [⟨"metric", "struct RawMetricId"⟩, ⟨"ctx", "const struct FfiOutputContext *"⟩]⟩,
  ⟨"system_time_now", "struct Timestamp *", []⟩,
  ⟨"mpoint_new_u64", "struct MeasurementPoint *",
    [⟨"timestamp", "struct Timestamp"⟩, ⟨"metric", "struct RawMetricId"⟩,
     ⟨"resource", "struct FfiResourceId"⟩, ⟨"consumer", "struct FfiConsumerId"⟩,
     ⟨"value", "uint64_t"⟩]⟩,
  ⟨"mpoint_new_f64", "struct MeasurementPoint *",
    [⟨"timestamp", "struct Timestamp"⟩, ⟨"metric", "struct RawMetricId"⟩,
     ⟨"resource", "struct FfiResourceId"⟩, ⟨"consumer", "struct FfiConsumerId"⟩,
     ⟨"value", "double"⟩]⟩,
  ⟨"mpoint_free", "void", [⟨"point", "struct MeasurementPoint *"⟩]⟩,
  ⟨"mpoint_attr_u64", "void",
    [⟨"point", "struct MeasurementPoint *"⟩, ⟨"key", "struct AStr"⟩, ⟨"value", "uint64_t"⟩]⟩,
  ⟨"mpoint_attr_f64", "void",
    [⟨"point", "struct MeasurementPoint *"⟩, ⟨"key", "struct AStr"⟩, ⟨"value", "double"⟩]⟩,
  ⟨"mpoint_attr_bool", "void",
    [⟨"point", "struct MeasurementPoint *"⟩, ⟨"key", "struct AStr"⟩, ⟨"value", "bool"⟩]⟩,
  ⟨"mpoint_attr_str", "void",
    [⟨"point", "struct MeasurementPoint *"⟩, ⟨"key", "struct AStr"⟩, ⟨"value", "struct AStr"⟩]⟩,
  ⟨"mpoint_metric", "struct RawMetricId", [⟨"point", "const struct MeasurementPoint *"⟩]⟩,
  ⟨"mpoint_value", "struct FfiMeasurementValue", [⟨"point", "const struct MeasurementPoint *"⟩]⟩,
  ⟨"mpoint_timestamp", "struct Timestamp", [⟨"point", "const struct MeasurementPoint *"⟩]⟩,
  ⟨"mpoint_resource", "struct FfiResourceId", [⟨"point", "const struct MeasurementPoint *"⟩]⟩,
  ⟨"mpoint_resource_kind", "struct AString", [⟨"point", "const struct MeasurementPoint *"⟩]⟩,
  ⟨"mpoint_resource_id", "struct AString", [⟨"point", "const struct MeasurementPoint *"⟩]⟩,
  ⟨"mpoint_consumer", "struct FfiConsumerId", [⟨"point", "const struct MeasurementPoint *"⟩]⟩,
  ⟨"mpoint_consumer_kind", "struct AString", [⟨"point", "const struct MeasurementPoint *"⟩]⟩,
  ⟨"mpoint_consumer_id", "struct AString", [⟨"point", "const struct MeasurementPoint *"⟩]⟩,
  ⟨"mbuffer_len", "uintptr_t", [⟨"buf", "const struct MeasurementBuffer *"⟩]⟩,
  ⟨"mbuffer_reserve", "void",
    [⟨"buf", "struct MeasurementBuffer *"⟩, ⟨"additional", "uintptr_t"⟩]⟩,
  ⟨"mbuffer_foreach", "void",
    [⟨"buf", "const struct MeasurementBuffer *"⟩, ⟨"data", "void *"⟩, ⟨"f", "ForeachPointFn"⟩]⟩,
  ⟨"mbuffer_push", "void",
    [⟨"buf", "struct MeasurementBuffer *"⟩, ⟨"point", "struct MeasurementPoint *"⟩]⟩,
  ⟨"maccumulator_push", "void",
    [⟨"buf", "struct MeasurementAccumulator *"⟩, ⟨"point", "struct MeasurementPoint *"⟩]⟩,
  ⟨"alumet_create_metric", "struct RawMetricId",
    [⟨"alumet", "struct AlumetStart *"⟩, ⟨"name", "struct AStr"⟩,
     ⟨"value_type", "enum WrappedMeasurementType"⟩, ⟨"unit", "union FfiUnit"⟩,
     ⟨"description", "struct AStr"⟩]⟩,
  ⟨"alumet_create_metric_c", "struct RawMetricId",
    [⟨"alumet", "struct AlumetStart *"⟩, ⟨"name", "const char *"⟩,
     ⟨"value_type", "enum WrappedMeasurementType"⟩, ⟨"unit", "union FfiUnit"⟩,
     ⟨"description", "const char *"⟩]⟩,
  ⟨"alumet_add_source", "void",
    [⟨"alumet", "struct AlumetStart *"⟩, ⟨"source_data", "void *"⟩,
     ⟨"poll_interval", "struct TimeDuration"⟩, ⟨"flush_interval", "struct TimeDuration"⟩,
     ⟨"source_poll_fn", "SourcePollFn"⟩, ⟨"source_drop_fn", "NullableDropFn"⟩]⟩,
  ⟨"alumet_add_transform", "void",
    [⟨"alumet", "struct AlumetStart *"⟩, ⟨"transform_data", "void *"⟩,
     ⟨"transform_apply_fn", "TransformApplyFn"⟩, ⟨"transform_drop_fn", "NullableDropFn"⟩]⟩,
  ⟨"alumet_add_output", "void",
    [⟨"alumet", "struct AlumetStart *"⟩, ⟨"output_data", "void *"⟩,
     ⟨"output_write_fn", "OutputWriteFn"⟩, ⟨"output_drop_fn", "NullableDropFn"⟩]⟩,
  ⟨"resource_new_local_machine", "struct FfiResourceId", []⟩,
  ⟨"resource_new_cpu_package", "struct FfiResourceId", [⟨"pkg_id", "uint32_t"⟩]⟩,
  ⟨"consumer_new_local_machine", "struct FfiConsumerId", []⟩,
  ⟨"consumer_new_process", "struct FfiConsumerId", [⟨"pid", "uint32_t"⟩]⟩,
  ⟨"astring", "struct AString", [⟨"chars", "const char *"⟩]⟩,
  ⟨"astr_copy", "struct AString", [⟨"astr", "struct AStr"⟩]⟩,
  ⟨"astr_copy_nonnull", "struct AString", [⟨"astr", "struct NullableAStr"⟩]⟩,
  ⟨"astr", "struct AStr", [⟨"chars", "const char *"⟩]⟩,
  ⟨"astring_ref", "struct AStr", [⟨"string", "struct AString"⟩]⟩,
  ⟨"astring_free", "void", [⟨"string", "struct AString"⟩]⟩]

/-- Look up a declaration of the header by name. -/
def declNamed (n : String) : Option CFunDecl :=
  alumetApiDecls.find? (fun d => d.fname = n)

/-- The functions of the header that take a `MeasurementAccumulator` pointer
(const or not) among their parameters: the operations the C API offers on an
accumulator. -/
def accumulatorOps : List String :=
  (alumetApiDecls.filter (fun d => d.params.any (fun p =>
    p.ptype = "struct MeasurementAccumulator *" ∨
    p.ptype = "const struct MeasurementAccumulator *"))).map CFunDecl.fname

/-- The functions of the header that take a `MeasurementBuffer` pointer
(const or not) among their parameters: the operations the C API offers on a
buffer. -/
def bufferOps : List String :=
  (alumetApiDecls.filter (fun d => d.params.any (fun p =>
    p.ptype = "struct MeasurementBuffer *" ∨
    p.ptype = "const struct MeasurementBuffer *"))).map CFunDecl.fname

/-- `SourcePollFn` typedef, `alumet-api.h` lines 226-228. -/
def sourcePollFnParams : List CParam :=
  [⟨"instance", "void *"⟩, ⟨"buffer", "struct MeasurementAccumulator *"⟩,
   ⟨"timestamp", "struct Timestamp"⟩]

/-- `TransformApplyFn` typedef, `alumet-api.h` line 232. -/
def transformApplyFnParams : List CParam :=
  [⟨"instance", "void *"⟩, ⟨"buffer", "struct MeasurementBuffer *"⟩]

/-- `OutputWriteFn` typedef, `alumet-api.h` lines 234-236: the buffer is
passed as a const (read-only) pointer, together with a context pointer. -/
def outputWriteFnParams : List CParam :=
  [⟨"instance", "void *"⟩, ⟨"buffer", "const struct MeasurementBuffer *"⟩,
   ⟨"ctx", "const struct FfiOutputContext *"⟩]

/-- A recorded C call site: the called function and the literal argument
expressions, in order. -/
structure CCallSite where
  callee : String
  args : List String
deriving DecidableEq, Repr

/-- The call to `alumet_add_source` in `plugin_start`,
`src/test-dynamic-plugin-c/src/plugin.c` line 36. It passes the handle, the
source instance, the poll function and the drop function — and nothing else. -/
def pluginStart_addSource_call : CCallSite :=
  ⟨"alumet_add_source",
   ["alumet", "source", "(SourcePollFn)source_poll", "(NullableDropFn)source_drop"]⟩

/-- The call to `alumet_add_output` in `plugin_start`,
`src/test-dynamic-plugin-c/src/plugin.c` line 40. -/
def pluginStart_addOutput_call : CCallSite :=
  ⟨"alumet_add_output",
   ["alumet", "output", "(OutputWriteFn)output_write", "(NullableDropFn)output_drop"]⟩

/-- The call to `mpoint_new_f64` in `source_poll`,
`src/test-dynamic-plugin-c/src/source.c` line 101: four arguments
(timestamp, metric, resource, value) and no consumer. -/
def sourcePoll_mpointNew_call : CCallSite :=
  ⟨"mpoint_new_f64", ["timestamp", "source->metric_id", "resource", "joules"]⟩

/-- All observed call sites of `mpoint_new_u64` or `mpoint_new_f64` in the
C sources under `src/` (the only one is in `source_poll`). -/
def mpointNew_callSites : List CCallSite := [sourcePoll_mpointNew_call]

/-- All observed call sites of `alumet_add_source` in the C sources under
`src/` (the only one is in `plugin_start`). -/
def addSource_callSites : List CCallSite := [pluginStart_addSource_call]

/-! ## Behavioural embedding of `src/test-dynamic-plugin-c/src/source.c` -/

/-- `struct Timestamp` of the header: seconds + nanoseconds since epoch. -/
structure TimestampM where
  secs : Nat
  nanos : Nat
deriving DecidableEq, Repr

/-- `WrappedMeasurementType` enum of the header. -/
inductive WMType where
  | F64
  | U64
deriving DecidableEq, Repr

/-- `FfiMeasurementValue` tagged union. A `f64` payload is an opaque
representation of the C `double` (for the powercap source it is the
microjoule count the double was computed from, since the floating-point
multiplication by `0.0000001` is outside the model). -/
inductive MValue where
  | u64 (v : Nat)
  | f64 (bits : Nat)
deriving DecidableEq, Repr

/-- The tag of a measurement value. -/
def MValue.tag : MValue → WMType
  | .u64 _ => .U64
  | .f64 _ => .F64

/-- Resource / consumer identities observed in the C sources
(`resource_new_local_machine`, `resource_new_cpu_package`, ...). -/
inductive RCId where
  | localMachine
  | process (pid : Nat)
  | cpuPackage (pkg : Nat)
deriving DecidableEq, Repr

/-- A measurement point as produced by the C source plugin: timestamp,
metric id, resource, value, and u64 attributes added by `mpoint_attr_u64`.
(The `source_poll` of this revision builds points without a consumer id,
see `sourcePoll_mpointNew_call`.) -/
structure MPoint where
  timestamp : TimestampM
  metric : Nat
  resource : RCId
  value : MValue
  attrs : List (String × Nat)
deriving DecidableEq, Repr

/-- The `PowercapSource` struct of `source.h`: the custom attribute string,
the metric id, and the previous counter (`-1` encodes None). The file path,
fd and buffer size only affect I/O, which enters the model through
`PollInput`. -/
structure PowercapSource where
  custom_attribute : String
  metric_id : Nat
  previous_counter : Int
deriving DecidableEq, Repr

/-- Outcome of the I/O and parsing prefix of `source_poll` (lines 64-81 of
`source.c`): `fread` can fail (`ferror`), `strtoll` can fail
(`errno != 0`), or a counter value (a C `long long`) is obtained. -/
inductive PollInput where
  | readError
  | parseError
  | counter (value : Int)
deriving DecidableEq, Repr

/-- Cast of a C integer to `uint64_t`: reduction modulo `2^64`. -/
def toU64 (x : Int) : Nat := (x % (2 ^ 64 : Int)).toNat

/-- The counter-difference computation of `source_poll` (lines 83-94 of
`source.c`), in `uint64_t` arithmetic (every C u64 operation is exact
integer arithmetic followed by reduction mod `2^64`):
if `previous == -1` the raw counter is cast to u64; else if
`counter < previous` the code computes
`(uint64_t)counter - (uint64_t)previous + 0xFFFFFFFFFFFFFFFF`; else
`(uint64_t)(counter - previous)`. -/
def consumed_energy_uj (previous counter : Int) : Nat :=
  if previous = -1 then
    toU64 counter
  else if counter < previous then
    toU64 ((toU64 counter : Int) - (toU64 previous : Int) + 0xFFFFFFFFFFFFFFFF)
  else
    toU64 (counter - previous)

/-- `source_poll` (lines 59-106 of `source.c`): on a read error or a parse
error the function returns immediately, pushing nothing; otherwise it
computes the consumed energy, builds one f64 point for cpu package 0 with
the custom attribute set to `1234`, and pushes it. The function returns
only the accumulator: the C code never writes to `source` (in particular
`previous_counter` is not updated) and returns `void`, so no error can
reach the engine. -/
def source_poll (source : PowercapSource) (input : PollInput)
    (timestamp : TimestampM) (acc : List MPoint) : List MPoint :=
  match input with
  | .readError => acc
  | .parseError => acc
  | .counter c =>
      let consumed := consumed_energy_uj source.previous_counter c
      let resource := RCId.cpuPackage 0
      let p : MPoint :=
        ⟨timestamp, source.metric_id, resource, .f64 consumed,
         [(source.custom_attribute, 1234)]⟩
      acc ++ [p]

/-! ## Configuration model

The configuration accessors are implemented by the Rust engine, which is not
among the observed sources; only their declarations appear in the header.
They are modelled from the spec below. -/

/-- A value of the configuration tree: scalar, array, or nested table
(spec section on ConfigTable / ConfigArray). A float payload is an opaque
representation of the C `double`. -/
inductive ConfigValue where
  | vString (s : String)
  | vInt (i : Int)
  | vBool (b : Bool)
  | vFloat (bits : Nat)
  | vArray (elems : List ConfigValue)
  | vTable (entries : List (String × ConfigValue))

/-- A configuration table: string keys mapped to values. -/
def ConfigTableM : Type := List (String × ConfigValue)

/-- First value bound to `key` in the table, if any. -/
def lookupKey (t : ConfigTableM) (key : String) : Option ConfigValue :=
  (t.find? (fun e => e.1 = key)).map Prod.snd

/-- Modelled from the spec: `config_string_in` (declared at
`alumet-api.h` line 238, implementation not under `src/`) returns the
string bound to the key, and an absent (null) result when the key is
missing or not a string — absence is not an error. -/
def config_string_in (t : ConfigTableM) (key : String) : Option String :=
  match lookupKey t key with
  | some (.vString s) => some s
  | _ => none

/-- Modelled from the spec: `config_cstring_in` (header line 240), the
C-string variant of `config_string_in`; a null pointer when the key is
missing or not a string. -/
def config_cstring_in (t : ConfigTableM) (key : String) : Option String :=
  match lookupKey t key with
  | some (.vString s) => some s
  | _ => none

/-- Modelled from the spec: `config_int_in` (header line 242); null when
missing or not an integer. -/
def config_int_in (t : ConfigTableM) (key : String) : Option Int :=
  match lookupKey t key with
  | some (.vInt i) => some i
  | _ => none

/-- Modelled from the spec: `config_bool_in` (header line 244); null when
missing or not a boolean. -/
def config_bool_in (t : ConfigTableM) (key : String) : Option Bool :=
  match lookupKey t key with
  | some (.vBool b) => some b
  | _ => none

/-- Modelled from the spec: `config_float_in` (header line 246); null when
missing or not a float. -/
def config_float_in (t : ConfigTableM) (key : String) : Option Nat :=
  match lookupKey t key with
  | some (.vFloat f) => some f
  | _ => none

/-- Modelled from the spec: `config_array_in` (header line 248); null when
missing or not an array. -/
def config_array_in (t : ConfigTableM) (key : String) : Option (List ConfigValue) :=
  match lookupKey t key with
  | some (.vArray a) => some a
  | _ => none

/-- Modelled from the spec: `config_table_in` (header line 250); null when
missing or not a table. -/
def config_table_in (t : ConfigTableM) (key : String) : Option (List (String × ConfigValue)) :=
  match lookupKey t key with
  | some (.vTable tb) => some tb
  | _ => none

/-! ## Behavioural embedding of `src/test-dynamic-plugin-c/src/plugin.c` -/

/-- `NullableAStr` of the header: length and a nullable pointer; the
pointed-to characters are carried with the pointer. -/
structure NullableAStrM where
  len : Nat
  ptr : Option String
deriving DecidableEq, Repr

/-- The `NullableAStr` returned across the FFI for a `config_string_in`
call: a null pointer when the model returns `none`. -/
def config_string_in_ffi (t : ConfigTableM) (key : String) : NullableAStrM :=
  match config_string_in t key with
  | some s => ⟨s.length, some s⟩
  | none => ⟨0, none⟩

/-- `astring(chars)`: a fresh owned copy of a C string literal
(header lines 372-378). The model carries the owned contents. -/
def astring (chars : String) : String := chars

/-- `astr_copy_nonnull(astr)`: an owned copy of the pointed-to characters
(header line 382; called only on a non-null `NullableAStr`). -/
def astr_copy_nonnull (a : NullableAStrM) : String :=
  match a.ptr with
  | some s => s
  | none => ""

/-- The `PluginStruct` of `plugin.c`: the owned custom attribute string. -/
structure PluginStruct where
  custom_attribute : String
deriving DecidableEq, Repr

/-- `plugin_init` (lines 15-25 of `plugin.c`): reads `custom_attribute`
from the config; if the returned `NullableAStr` has a null `ptr` it stores
the owned string `astring("null")`, otherwise an owned copy of the
configured string; it then returns the (non-null) instance pointer.
Allocation is assumed to succeed (the C code does not check `malloc`);
`some` models the returned non-null pointer. -/
def plugin_init (config : ConfigTableM) : Option PluginStruct :=
  let custom_attribute := config_string_in_ffi config "custom_attribute"
  match custom_attribute.ptr with
  | none => some ⟨astring "null"⟩
  | some _ => some ⟨astr_copy_nonnull custom_attribute⟩

/-! ## Metric registry model

Metric registration and lookup are implemented by the Rust engine, which is
not among the observed sources; the header only declares
`alumet_create_metric`. The registry and the type check of P2 are modelled
from the spec. -/

/-- `FfiUnit` tags of the header (lines 157-202); the custom unit carries
its two names. -/
inductive FfiUnitM where
  | unity
  | second
  | watt
  | joule
  | volt
  | ampere
  | hertz
  | degreeCelsius
  | degreeFahrenheit
  | wattHour
  | custom (unique_name display_name : String)
deriving DecidableEq, Repr

/-- A registered metric: name, unit, value type, description
(spec: Metric). -/
structure MetricInfo where
  name : String
  unit : FfiUnitM
  value_type : WMType
  description : String
deriving DecidableEq, Repr

/-- Modelled from the spec: the process-wide metric registry (implemented
in the Rust engine, not under `src/`); a metric id is an index into the
append-only list of registered metrics. -/
def MetricRegistry : Type := List MetricInfo

/-- Modelled from the spec: `registry.lookup(id)` returns the registered
tuple for a valid id. -/
def registry_lookup (reg : MetricRegistry) (id : Nat) : Option MetricInfo :=
  reg.get? id

/-- Modelled from the spec (P2): constructing / inserting a point whose
value tag mismatches the metric's declared `value_type` is rejected; the
engine-side checked construction builds the point only when the tag of the
value agrees with the registered type, and rejects it (`none`) otherwise. -/
def mpoint_new_checked (reg : MetricRegistry) (timestamp : TimestampM)
    (metric : Nat) (resource : RCId) (value : MValue) : Option MPoint :=
  match registry_lookup reg metric with
  | some info =>
      if value.tag = info.value_type then
        some ⟨timestamp, metric, resource, value, []⟩
      else
        none
  | none => none

/-! ## Observed output implementations and point-operation traces -/

/-- Signature of `output_write` as defined in
`src/test-dynamic-plugin-c/src/output.c` line 14: instance and const
buffer only — no context parameter. -/
def outputWrite_test_params : List CParam :=
  [⟨"output", "StdOutput *"⟩, ⟨"buffer", "const MeasurementBuffer *"⟩]

/-- Signature of `output_write` as defined in
`src/separate-tests/test-dynamic-plugin-c/src/output.c` line 14: instance,
const buffer, and const context. -/
def outputWrite_separate_params : List CParam :=
  [⟨"output", "StdOutput *"⟩, ⟨"buffer", "const MeasurementBuffer *"⟩,
   ⟨"ctx", "const FfiOutputContext *"⟩]

/-- The `metric_name` call in `write_point`,
`src/test-dynamic-plugin-c/src/output.c` line 21: a single argument, no
context. -/
def writePoint_test_metricName_call : CCallSite :=
  ⟨"metric_name", ["mpoint_metric(point)"]⟩

/-- The `metric_name` call in `write_point`,
`src/separate-tests/test-dynamic-plugin-c/src/output.c` line 22: metric id
and context. -/
def writePoint_separate_metricName_call : CCallSite :=
  ⟨"metric_name", ["mpoint_metric(point)", "ctx"]⟩

/-- The buffer operations invoked by the body of `output_write` in
`src/test-dynamic-plugin-c/src/output.c` (line 15): only the const
traversal. -/
def outputWrite_test_bufferCalls : List String := ["mbuffer_foreach"]

/-- The buffer operations invoked by the body of `output_write` in
`src/separate-tests/test-dynamic-plugin-c/src/output.c` (line 15). -/
def outputWrite_separate_bufferCalls : List String := ["mbuffer_foreach"]

/-- A header operation is read-only on the buffer when it never takes a
mutable (non-const) `MeasurementBuffer` pointer. -/
def readOnlyBufferOp (n : String) : Bool :=
  match declNamed n with
  | some d => d.params.all (fun p => p.ptype ≠ "struct MeasurementBuffer *")
  | none => false

/-- The operations applied to the point pointer `p` in `source_poll`
(`source.c` lines 101-105), in program order: creation, one attribute
write, then the push — nothing afterwards. -/
def sourcePoll_pointOps : List String :=
  ["mpoint_new_f64", "mpoint_attr_u64", "maccumulator_push"]

/-- All observed call sites of `maccumulator_push` in the C sources under
`src/`: only `source.c` line 105, with arguments `(acc, p)`. -/
def maccumulatorPush_callSites : List CCallSite :=
  [⟨"maccumulator_push", ["acc", "p"]⟩]

/-- All observed call sites of `mbuffer_push` in the C sources under
`src/`: there are none. -/
def mbufferPush_callSites : List CCallSite := []

/-- All observed call sites of `mpoint_free` in the C sources under
`src/`: there are none. -/
def mpointFree_callSites : List CCallSite := []

/-- The accessor functions of the header that read a point
(`mpoint_metric` ... `mpoint_consumer_id`). -/
def mpointAccessors : List String :=
  ["mpoint_metric", "mpoint_value", "mpoint_timestamp", "mpoint_resource",
   "mpoint_resource_kind", "mpoint_resource_id", "mpoint_consumer",
   "mpoint_consumer_kind", "mpoint_consumer_id"]

/-! ## Claim formalizations and theorems -/

/-- C1 as stated: the header declares `alumet_add_source` with the instance
pointer, both intervals, the poll function and the drop function, and every
observed call site supplies an argument for every declared parameter — in
particular both intervals. -/
def claimC1 : Prop :=
  (declNamed "alumet_add_source").map (fun d => d.params.map CParam.pname) =
    some ["alumet", "source_data", "poll_interval", "flush_interval",
          "source_poll_fn", "source_drop_fn"] ∧
  ∀ c ∈ addSource_callSites,
    c.args.length =
      ((declNamed "alumet_add_source").map (fun d => d.params.length)).getD 0

/-- C1 counterexample: the claim as stated is false — the observed call to
`alumet_add_source` in `plugin_start` (`plugin.c` line 36) passes four
arguments for the six declared parameters, so it passes neither interval. -/
theorem claimC1_false : claimC1 ↔ False :=
  iff_false_intro (by unfold claimC1; decide)

/-- C1 (amended): `alumet_add_source` is declared with six parameters —
the handle, the source instance pointer, `poll_interval` and
`flush_interval` (the two `struct TimeDuration` parameters), the poll
function and the nullable drop function — but the single observed call
site, in `plugin_start`, passes only four arguments (handle, source, poll
function, drop function), omitting both intervals: it follows the earlier
revision of the registration signature. -/
theorem addSource_signature :
    (declNamed "alumet_add_source").map (fun d => d.params.map CParam.pname) =
      some ["alumet", "source_data", "poll_interval", "flush_interval",
            "source_poll_fn", "source_drop_fn"] ∧
    (declNamed "alumet_add_source").map (fun d =>
        (d.params.filter (fun p => p.ptype = "struct TimeDuration")).map CParam.pname) =
      some ["poll_interval", "flush_interval"] ∧
    addSource_callSites = [pluginStart_addSource_call] ∧
    pluginStart_addSource_call.args =
      ["alumet", "source", "(SourcePollFn)source_poll", "(NullableDropFn)source_drop"] ∧
    pluginStart_addSource_call.args.length = 4 := by decide

/-- C2 as stated: both point constructors are declared with the five
components (timestamp, metric, resource, consumer, value), and every
observed call site of a point constructor supplies all five. -/
def claimC2 : Prop :=
  (declNamed "mpoint_new_u64").map (fun d => d.params.map CParam.pname) =
    some ["timestamp", "metric", "resource", "consumer", "value"] ∧
  (declNamed "mpoint_new_f64").map (fun d => d.params.map CParam.pname) =
    some ["timestamp", "metric", "resource", "consumer", "value"] ∧
  ∀ c ∈ mpointNew_callSites, c.args.length = 5

/-- C2 counterexample: the claim as stated is false — the observed call to
`mpoint_new_f64` in `source_poll` (`source.c` line 101) supplies four
arguments (timestamp, metric, resource, value), omitting the consumer. -/
theorem claimC2_false : claimC2 ↔ False :=
  iff_false_intro (by unfold claimC2; decide)

/-- C2 (amended): `mpoint_new_u64` and `mpoint_new_f64` are declared with
the five components, the value parameter typed `uint64_t` for the U64
constructor and `double` for the F64 constructor; the single observed call
site, in `source_poll`, supplies only the four arguments
(timestamp, metric, resource, value), omitting the consumer id — it
follows the collapsed resource-only revision of the data model. -/
theorem mpointNew_signature :
    (declNamed "mpoint_new_u64").map (fun d => d.params.map CParam.pname) =
      some ["timestamp", "metric", "resource", "consumer", "value"] ∧
    (declNamed "mpoint_new_f64").map (fun d => d.params.map CParam.pname) =
      some ["timestamp", "metric", "resource", "consumer", "value"] ∧
    (declNamed "mpoint_new_u64").map (fun d => (d.params.map CParam.ptype).getLast?) =
      some (some "uint64_t") ∧
    (declNamed "mpoint_new_f64").map (fun d => (d.params.map CParam.ptype).getLast?) =
      some (some "double") ∧
    mpointNew_callSites = [sourcePoll_mpointNew_call] ∧
    sourcePoll_mpointNew_call.callee = "mpoint_new_f64" ∧
    sourcePoll_mpointNew_call.args =
      ["timestamp", "source->metric_id", "resource", "joules"] ∧
    sourcePoll_mpointNew_call.args.length = 4 := by decide

/-- C3: `maccumulator_push` is the only function of the C API that operates
on a `MeasurementAccumulator`, and the functions operating on a
`MeasurementBuffer` are exactly `mbuffer_len`, `mbuffer_reserve`,
`mbuffer_foreach` and `mbuffer_push` — the accumulator interface offers
only appending, the buffer exactly push, len, reserve and for_each. -/
theorem accumulator_buffer_interface :
    accumulatorOps = ["maccumulator_push"] ∧
    bufferOps = ["mbuffer_len", "mbuffer_reserve", "mbuffer_foreach", "mbuffer_push"] := by
  decide

/-- C4: (spec-modelled, engine side) every point built through the checked
construction satisfies P2 — the tag of its value equals the `value_type`
registered for its metric — and a construction whose value tag mismatches
the registered `value_type` is rejected (`none`), never silently
accepted. -/
theorem mpoint_type_agreement :
    (∀ (reg : MetricRegistry) (ts : TimestampM) (metric : Nat) (res : RCId)
        (v : MValue) (p : MPoint),
      mpoint_new_checked reg ts metric res v = some p →
        (registry_lookup reg p.metric).map MetricInfo.value_type = some p.value.tag) ∧
    (∀ (reg : MetricRegistry) (ts : TimestampM) (metric : Nat) (res : RCId)
        (v : MValue) (info : MetricInfo),
      registry_lookup reg metric = some info → v.tag ≠ info.value_type →
        mpoint_new_checked reg ts metric res v = none) := by
  constructor
  · intro reg ts metric res v p h
    cases hl : registry_lookup reg metric with
    | none => simp [mpoint_new_checked, hl] at h
    | some info =>
        by_cases htag : v.tag = info.value_type
        · simp only [mpoint_new_checked, hl, if_pos htag, Option.some.injEq] at h
          subst h
          simp [hl, htag]
        · simp [mpoint_new_checked, hl, if_neg htag] at h
  · intro reg ts metric res v info hl htag
    simp [mpoint_new_checked, hl, if_neg htag]

/-- C4 witness: with a registry holding one F64 metric, constructing an F64
point succeeds and satisfies type agreement, and constructing a U64 point
for the same metric is rejected. -/
theorem mpoint_type_agreement_witness :
    (registry_lookup [⟨"rapl_pkg_consumption", .joule, .F64, "energy"⟩] 0).map
      MetricInfo.value_type = some (MValue.f64 42).tag ∧
    mpoint_new_checked [⟨"rapl_pkg_consumption", .joule, .F64, "energy"⟩]
      ⟨0, 0⟩ 0 (.cpuPackage 0) (.u64 7) = none := by
  constructor
  · exact mpoint_type_agreement.1 [⟨"rapl_pkg_consumption", .joule, .F64, "energy"⟩]
      ⟨0, 0⟩ 0 (.cpuPackage 0) (.f64 42) ⟨⟨0, 0⟩, 0, .cpuPackage 0, .f64 42, []⟩ rfl
  · exact mpoint_type_agreement.2 [⟨"rapl_pkg_consumption", .joule, .F64, "energy"⟩]
      ⟨0, 0⟩ 0 (.cpuPackage 0) (.u64 7) ⟨"rapl_pkg_consumption", .joule, .F64, "energy"⟩
      rfl (by simp [MValue.tag])

/-- C5: (spec-modelled, engine side) for every table and key, each of the
seven typed accessors returns the absent result (`none`, the null pointer
across the FFI) when the key is missing, and likewise when the key is bound
to a value of another type; absence is never an error code or a crash —
the accessors are total functions into an option. -/
theorem config_absence (t : ConfigTableM) (k : String) :
    (lookupKey t k = none →
      config_string_in t k = none ∧ config_cstring_in t k = none ∧
      config_int_in t k = none ∧ config_bool_in t k = none ∧
      config_float_in t k = none ∧ config_array_in t k = none ∧
      config_table_in t k = none) ∧
    (∀ v, lookupKey t k = some v →
      ((∀ s, v ≠ .vString s) →
        config_string_in t k = none ∧ config_cstring_in t k = none) ∧
      ((∀ i, v ≠ .vInt i) → config_int_in t k = none) ∧
      ((∀ b, v ≠ .vBool b) → config_bool_in t k = none) ∧
      ((∀ f, v ≠ .vFloat f) → config_float_in t k = none) ∧
      ((∀ a, v ≠ .vArray a) → config_array_in t k = none) ∧
      ((∀ tb, v ≠ .vTable tb) → config_table_in t k = none)) := by
  constructor
  · intro h
    simp [config_string_in, config_cstring_in, config_int_in, config_bool_in,
      config_float_in, config_array_in, config_table_in, h]
  · intro v hv
    cases v <;>
      simp [config_string_in, config_cstring_in, config_int_in, config_bool_in,
        config_float_in, config_array_in, config_table_in, hv]

/-- C5 witness: on the concrete table mapping "k" to the integer 3, every
accessor returns `none` for the missing key "absent", and the string
accessor returns `none` for the present-but-integer key "k". -/
theorem config_absence_witness :
    config_string_in [("k", ConfigValue.vInt 3)] "absent" = none ∧
    config_int_in [("k", ConfigValue.vInt 3)] "absent" = none ∧
    config_string_in [("k", ConfigValue.vInt 3)] "k" = none := by
  refine ⟨?_, ?_, ?_⟩
  · exact ((config_absence [("k", ConfigValue.vInt 3)] "absent").1 rfl).1
  · exact ((config_absence [("k", ConfigValue.vInt 3)] "absent").1 rfl).2.2.1
  · exact (((config_absence [("k", ConfigValue.vInt 3)] "k").2 (.vInt 3) rfl).1
      (fun s h => ConfigValue.noConfusion h)).1

/-- C6: a poll tick whose file read fails (`ferror`) or whose counter parse
fails (`errno != 0`) returns with the accumulator exactly as it was — zero
points pushed — and `source_poll` is a total function returning no error
value, so the failure neither aborts the source nor reaches the engine. -/
theorem source_poll_error_pushes_nothing (source : PowercapSource)
    (timestamp : TimestampM) (acc : List MPoint) :
    source_poll source .readError timestamp acc = acc ∧
    source_poll source .parseError timestamp acc = acc :=
  ⟨rfl, rfl⟩

/-- The parameter lists of the observed `output_write` implementations. -/
def observedOutputImpls : List (List CParam) :=
  [outputWrite_test_params, outputWrite_separate_params]

/-- C7 as stated: `OutputWriteFn` passes the buffer as a const view plus a
context, `metric_name` requires the context, and every observed output
implementation conforms to this three-parameter signature. -/
def claimC7 : Prop :=
  outputWriteFnParams.map CParam.ptype =
    ["void *", "const struct MeasurementBuffer *", "const struct FfiOutputContext *"] ∧
  (declNamed "metric_name").map (fun d => d.params.map CParam.ptype) =
    some ["struct RawMetricId", "const struct FfiOutputContext *"] ∧
  ∀ impl ∈ observedOutputImpls, impl.length = outputWriteFnParams.length

/-- C7 counterexample: the claim as stated is false — `output_write` in
`src/test-dynamic-plugin-c/src/output.c` is defined with two parameters
(instance and const buffer), without the context parameter. -/
theorem claimC7_false : claimC7 ↔ False :=
  iff_false_intro (by unfold claimC7; decide)

/-- C7 (amended): the `OutputWriteFn` contract passes the buffer as a const
(read-only) view together with a const context, and `metric_name` takes the
context as its second parameter; both observed output implementations touch
the buffer only through the read-only `mbuffer_foreach` (never a mutating
operation); the `separate-tests` implementation conforms to the
three-parameter signature and passes the context to `metric_name`, but the
`test-dynamic-plugin-c` implementation omits the context parameter and
calls `metric_name` with a single argument — it follows the earlier
revision that had no output context. -/
theorem outputWrite_signature :
    outputWriteFnParams.map CParam.ptype =
      ["void *", "const struct MeasurementBuffer *",
       "const struct FfiOutputContext *"] ∧
    (declNamed "metric_name").map (fun d => d.params.map CParam.ptype) =
      some ["struct RawMetricId", "const struct FfiOutputContext *"] ∧
    outputWrite_separate_params.map CParam.ptype =
      ["StdOutput *", "const MeasurementBuffer *", "const FfiOutputContext *"] ∧
    writePoint_separate_metricName_call.args = ["mpoint_metric(point)", "ctx"] ∧
    outputWrite_test_params.map CParam.ptype =
      ["StdOutput *", "const MeasurementBuffer *"] ∧
    writePoint_test_metricName_call.args.length = 1 ∧
    outputWrite_test_bufferCalls.all readOnlyBufferOp = true ∧
    outputWrite_separate_bufferCalls.all readOnlyBufferOp = true := by decide

/-- C8: in the observed callers, the push is the last use of the pushed
point pointer: in `source_poll` the operations on `p` are creation, one
attribute write, then `maccumulator_push`, and from the push onward nothing
else touches `p` (in particular no `mpoint_free` and no `mpoint_*`
accessor); `maccumulator_push` has exactly this one observed call site and
`mbuffer_push` and `mpoint_free` have none. -/
theorem push_is_last_use :
    sourcePoll_pointOps.dropWhile (fun op => op ≠ "maccumulator_push") =
      ["maccumulator_push"] ∧
    sourcePoll_pointOps.count "maccumulator_push" = 1 ∧
    "mpoint_free" ∉ sourcePoll_pointOps ∧
    (∀ a ∈ mpointAccessors, a ∉ sourcePoll_pointOps) ∧
    maccumulatorPush_callSites = [⟨"maccumulator_push", ["acc", "p"]⟩] ∧
    mbufferPush_callSites = [] ∧
    mpointFree_callSites = [] := by decide

/-- C9: the counter-difference computation of `source_poll`, for `long
long` inputs (i.e. within the i64 range): on the first poll
(`previous = -1`) the consumed energy is the raw counter cast to u64; when
`previous ≠ -1` and the counter did not decrease it is the exact difference
`counter - previous`; when the counter decreased (wraparound) it is
`(counter - previous + 2^64 - 1) mod 2^64`, which is one less than the
mod-2^64 wrapped difference. -/
theorem consumed_energy_spec (previous counter : Int)
    (hp₁ : -(2 ^ 63) ≤ previous) (hp₂ : previous < 2 ^ 63)
    (hc₁ : -(2 ^ 63) ≤ counter) (hc₂ : counter < 2 ^ 63) :
    (previous = -1 → consumed_energy_uj previous counter = toU64 counter) ∧
    (previous ≠ -1 → previous ≤ counter →
      (consumed_energy_uj previous counter : Int) = counter - previous) ∧
    (previous ≠ -1 → counter < previous →
      (consumed_energy_uj previous counter : Int) =
        (counter - previous + 2 ^ 64 - 1) % 2 ^ 64 ∧
      (consumed_energy_uj previous counter : Int) + 1 =
        (counter - previous) % 2 ^ 64) := by
  have h64 : (2 : Int) ^ 64 = 18446744073709551616 := by norm_num
  have h63 : (2 : Int) ^ 63 = 9223372036854775808 := by norm_num
  rw [h63] at hp₁ hp₂ hc₁ hc₂
  refine ⟨?_, ?_, ?_⟩
  · intro h
    simp [consumed_energy_uj, h]
  · intro h hle
    have hnlt : ¬ counter < previous := not_lt.mpr hle
    simp only [consumed_energy_uj, toU64, if_neg h, if_neg hnlt, h64]
    omega
  · intro h hlt
    simp only [consumed_energy_uj, toU64, if_neg h, if_pos hlt, h64]
    constructor <;> omega

/-- C9 witness: at `previous = 5`, `counter = 3` (a decreased counter) the
consumed energy is the wrapped difference minus one, and at
`previous = -1`, `counter = 3` it is the raw counter. -/
theorem consumed_energy_spec_witness :
    (consumed_energy_uj 5 3 : Int) = (3 - 5 + 2 ^ 64 - 1) % 2 ^ 64 ∧
    consumed_energy_uj (-1) 3 = toU64 3 := by
  constructor
  · exact ((consumed_energy_spec 5 3 (by norm_num) (by norm_num) (by norm_num)
      (by norm_num)).2.2 (by norm_num) (by norm_num)).1
  · exact (consumed_energy_spec (-1) 3 (by norm_num) (by norm_num) (by norm_num)
      (by norm_num)).1 rfl

/-- C10: for every configuration table, `plugin_init` returns a non-null
instance (allocation modelled as succeeding, as the C code assumes); when
`config_string_in` finds no "custom_attribute" key (null `ptr` in the
returned `NullableAStr`) the stored custom attribute is the owned literal
"null", and otherwise it is an owned copy of the configured string. -/
theorem plugin_init_spec (config : ConfigTableM) :
    (plugin_init config).isSome = true ∧
    (config_string_in config "custom_attribute" = none →
      plugin_init config = some ⟨astring "null"⟩) ∧
    (∀ s, config_string_in config "custom_attribute" = some s →
      plugin_init config = some ⟨s⟩) := by
  refine ⟨?_, ?_, ?_⟩
  · cases h : config_string_in config "custom_attribute" <;>
      simp [plugin_init, config_string_in_ffi, h]
  · intro h
    simp [plugin_init, config_string_in_ffi, h, astring]
  · intro s h
    simp [plugin_init, config_string_in_ffi, h, astr_copy_nonnull]

/-- C10 witness: on the empty table the key is absent and the stored
attribute is "null"; on a table binding "custom_attribute" to "laptop" the
stored attribute is "laptop"; both calls return a non-null instance. -/
theorem plugin_init_spec_witness :
    plugin_init [] = some ⟨astring "null"⟩ ∧
    plugin_init [("custom_attribute", ConfigValue.vString "laptop")] =
      some ⟨"laptop"⟩ ∧
    (plugin_init []).isSome = true := by
  refine ⟨?_, ?_, ?_⟩
  · exact (plugin_init_spec []).2.1 rfl
  · exact (plugin_init_spec [("custom_attribute", ConfigValue.vString "laptop")]).2.2
      "laptop" rfl
  · exact (plugin_init_spec []).1

end Alumet
